import Mathlib

/-!
A shallow embedding in Lean 4 of `src/desktop_cube.c` (an X11/OpenGL program
that draws a rotating cube on the desktop background), together with theorems
settling the behavioural claims about it.

Modelling conventions:
* C pointers and X11/GL handles are `Nat` with `0` standing for `NULL` / an
  unacquired handle, matching the truthiness tests the C code performs.
* C `int` values are `Int`.  The integer arithmetic involved (screen sizes,
  microsecond frame times) stays far below any machine-word bound, so no
  wrap-around modelling is needed.
* The rotation angles are C `float`s, but every value the program ever stores
  in them is an integer multiple of 1/2 with magnitude below 361; all such
  values are exactly representable in IEEE single precision, `x + 0.5f` is
  exact there, and `fmod` is exact, so modelling the angles as `ℚ` reproduces
  the float computation bit-for-bit.
* Calls into Xlib / GLX / OpenGL are modelled as emitted events; the external
  world (which X calls succeed, what the monotonic clock reports, when a
  termination signal is delivered) is an explicit oracle parameter.
-/

namespace DesktopCube

/-- Linux signal number for SIGINT. -/
def SIGINT : Int := 2

/-- Linux signal number for SIGTERM. -/
def SIGTERM : Int := 15

/-- `const int TARGET_FPS = 60;` (line 46). -/
def TARGET_FPS : Int := 60

/-- `const int TARGET_FRAME_DURATION = 1000000 / TARGET_FPS;` (line 47).
C integer division of two positive ints truncates, giving 16666. -/
def TARGET_FRAME_DURATION : Int := 1000000 / TARGET_FPS

/-- One Xinerama screen record: the fields of `XineramaScreenInfo` that the
program reads (`x_org`, `y_org`, `width`, `height`). -/
structure XineramaScreenInfo where
  x_org : Int
  y_org : Int
  width : Int
  height : Int
deriving DecidableEq, Repr

/-- The flag update performed by `signal_handler` (lines 111-115): the handler
body is `if (signum == SIGINT || signum == SIGTERM) terminate = 1;`, its only
observable effect being the new value of the `terminate` flag. -/
def signal_handler (signum : Int) (terminate : Int) : Int :=
  if signum = SIGINT ∨ signum = SIGTERM then 1 else terminate

/-- The combined-size loop of `initialize` (lines 148-155): starting from
`(0, 0)`, every screen adds its width to `combined_width`, and adds its height
to `combined_height` exactly when that height is strictly greater than the
current `combined_height` (the C ternary adds `0` otherwise). -/
def combinedSize (screens : List XineramaScreenInfo) : Int × Int :=
  screens.foldl
    (fun acc s => (acc.1 + s.width, acc.2 + (if s.height > acc.2 then s.height else 0)))
    (0, 0)

/-- The maximum screen height, which is what the specification says the
surface height should be ("height equal to the maximum region height").
This is the spec-side comparand for the height computation; it is NOT what
the code computes. -/
def maxHeight (screens : List XineramaScreenInfo) : Int :=
  screens.foldl (fun m s => max m s.height) 0

/-- Truncated remainder on ℚ with the semantics of C `fmod` for a positive
modulus and non-negative argument: `fmodQ x m = x - m * trunc(x / m)`, which
for `x ≥ 0`, `m > 0` coincides with `x - m * ⌊x / m⌋`.  The program only ever
calls `fmod` with arguments in `[0.5, 360.5)` and modulus `360`, where both
notions agree, so the floor form is used. -/
def fmodQ (x m : ℚ) : ℚ := x - m * (⌊x / m⌋ : ℤ)

/-- `update_rotation_angles` (lines 245-248): each angle becomes
`fmod(angle + 0.5f, 360.0f)`.  The pair is `(angle_x, angle_y)`. -/
def update_rotation_angles (a : ℚ × ℚ) : ℚ × ℚ :=
  (fmodQ (a.1 + 1/2) 360, fmodQ (a.2 + 1/2) 360)

/-- `time_to_sleep = TARGET_FRAME_DURATION - frame_time_elapsed` (line 307). -/
def time_to_sleep (frame_time_elapsed : Int) : Int :=
  TARGET_FRAME_DURATION - frame_time_elapsed

/-- The pacing decision of lines 307-310: `usleep` is called with
`time_to_sleep` exactly when `time_to_sleep > 0`; `none` means no sleep
happens. -/
def frameSleep (frame_time_elapsed : Int) : Option Int :=
  if time_to_sleep frame_time_elapsed > 0 then some (time_to_sleep frame_time_elapsed)
  else none

/-- The `AppData` struct (lines 97-108).  Handle/pointer fields are `Nat`
with `0` as `NULL`; `screen_info` additionally carries the screen records the
pointer refers to (`none` is a `NULL` pointer). -/
structure AppData where
  display : Nat
  window : Nat
  screen_info : Option (List XineramaScreenInfo)
  visual_info : Nat
  glx_context : Nat
  color_map : Nat
  vertex_buffer : Nat
  index_buffer : Nat
  color_buffer : Nat
  num_screens : Int
deriving DecidableEq, Repr

/-- `AppData app_data = {0};` (line 316): the zero-initialized context. -/
def zeroApp : AppData :=
  { display := 0, window := 0, screen_info := none, visual_info := 0,
    glx_context := 0, color_map := 0, vertex_buffer := 0, index_buffer := 0,
    color_buffer := 0, num_screens := 0 }

/-- A resource-releasing library call issued by `cleanup`. -/
inductive XCall where
  | glDeleteBuffers (id : Nat)
  | xFreeColormap (id : Nat)
  | xDestroyWindow (id : Nat)
  | glXDestroyContext (id : Nat)
  | xFreeVisualInfo (id : Nat)
  | xFreeScreenInfo
  | xCloseDisplay (id : Nat)
deriving DecidableEq, Repr

/-- The release calls `cleanup` (lines 118-128) issues, in source order: each
call is guarded by C truthiness of the corresponding field, and no field is
written. -/
def cleanupCalls (a : AppData) : List XCall :=
  (if a.vertex_buffer ≠ 0 then [XCall.glDeleteBuffers a.vertex_buffer] else []) ++
  (if a.index_buffer ≠ 0 then [XCall.glDeleteBuffers a.index_buffer] else []) ++
  (if a.color_buffer ≠ 0 then [XCall.glDeleteBuffers a.color_buffer] else []) ++
  (if a.color_map ≠ 0 then [XCall.xFreeColormap a.color_map] else []) ++
  (if a.window ≠ 0 then [XCall.xDestroyWindow a.window] else []) ++
  (if a.glx_context ≠ 0 then [XCall.glXDestroyContext a.glx_context] else []) ++
  (if a.visual_info ≠ 0 then [XCall.xFreeVisualInfo a.visual_info] else []) ++
  (if a.screen_info.isSome then [XCall.xFreeScreenInfo] else []) ++
  (if a.display ≠ 0 then [XCall.xCloseDisplay a.display] else [])

/-- `cleanup` (lines 118-128) as a state transformer: the function body
contains no assignment to any `app_data` field, so the resulting context is
the argument itself, alongside the emitted release calls. -/
def cleanup (a : AppData) : AppData × List XCall :=
  (a, cleanupCalls a)

/-- `n` successive invocations of `cleanup` on a context, accumulating the
release calls all of them issue. -/
def runCleanup : Nat → AppData → AppData × List XCall
  | 0, a => (a, [])
  | n + 1, a =>
    let r1 := cleanup a
    let r2 := runCleanup n r1.1
    (r2.1, r1.2 ++ r2.2)

/-- GL matrix-mode constant `GL_PROJECTION`. -/
def GL_PROJECTION : Nat := 0x1701

/-- GL matrix-mode constant `GL_MODELVIEW`. -/
def GL_MODELVIEW : Nat := 0x1700

/-- An OpenGL/GLU command issued inside a frame of `main_loop`. -/
inductive GLCmd where
  | glClear
  | glViewport (x y w h : Int)
  | glMatrixMode (mode : Nat)
  | glLoadIdentity
  | gluPerspective (fovy aspect zNear zFar : ℚ)
  | gluLookAt (ex ey ez cx cy cz ux uy uz : ℚ)
  | glRotatef (angle x y z : ℚ)
  | glDrawElements (count : Nat)
deriving DecidableEq, Repr

/-- The body of one iteration of the per-screen loop (lines 264-294):
viewport from the screen rectangle, perspective projection with that screen's
width/height aspect ratio, fixed camera, the two rotations, one indexed draw
of the 24 cube indices. -/
def renderScreen (angle_x angle_y : ℚ) (s : XineramaScreenInfo) : List GLCmd :=
  [GLCmd.glViewport s.x_org s.y_org s.width s.height,
   GLCmd.glMatrixMode GL_PROJECTION,
   GLCmd.glLoadIdentity,
   GLCmd.gluPerspective 50 ((s.width : ℚ) / (s.height : ℚ)) (1/10) 10,
   GLCmd.glMatrixMode GL_MODELVIEW,
   GLCmd.glLoadIdentity,
   GLCmd.gluLookAt 0 0 5 0 0 0 0 1 0,
   GLCmd.glRotatef angle_x 1 0 0,
   GLCmd.glRotatef angle_y 0 1 0,
   GLCmd.glDrawElements 24]

/-- The GL command stream of one frame (lines 259-294): a clear, then the
per-screen loop over the monitor regions in enumeration order (the rotation
angles have already been advanced for this frame). -/
def renderFrame (angle_x angle_y : ℚ) (screens : List XineramaScreenInfo) : List GLCmd :=
  GLCmd.glClear :: screens.flatMap (renderScreen angle_x angle_y)

/-- The slice of GL server state a draw call observes: the current viewport
and the aspect ratio of the current projection matrix. -/
structure GLState where
  viewport : Int × Int × Int × Int
  aspect : ℚ
deriving DecidableEq, Repr

/-- Replays a GL command stream against the server state, recording, for each
`glDrawElements`, the viewport and projection aspect in force at that draw. -/
def drawLog : GLState → List GLCmd → List ((Int × Int × Int × Int) × ℚ)
  | _, [] => []
  | g, c :: cs =>
    match c with
    | GLCmd.glViewport x y w h => drawLog { viewport := (x, y, w, h), aspect := g.aspect } cs
    | GLCmd.gluPerspective _ a _ _ => drawLog { viewport := g.viewport, aspect := a } cs
    | GLCmd.glDrawElements _ => (g.viewport, g.aspect) :: drawLog g cs
    | _ => drawLog g cs

/-- An observable event of `main_loop`: the read of the `terminate` flag at
the `while` condition (the only read of the flag per iteration), a GL command,
the buffer swap, a `usleep`, or the `XFlush`. -/
inductive Event where
  | check (observed : Bool)
  | gl (c : GLCmd)
  | swapBuffers
  | usleepCall (t : Int)
  | xFlush
deriving DecidableEq, Repr

/-- The mutable state `main_loop` works on: the application context plus the
two global rotation angles (lines 241-242, initialized to 0). -/
structure LoopState where
  app : AppData
  rotation_angle_x : ℚ
  rotation_angle_y : ℚ
deriving DecidableEq, Repr

/-- The body of one `while` iteration of `main_loop` (lines 253-311), given
the elapsed frame time reported by the two `clock_gettime` calls: clear and
per-screen rendering, buffer swap, conditional pacing sleep, `XFlush`.  The
body never writes any `app_data` field; only the rotation angles change. -/
def frameBody (elapsed : Int) (st : LoopState) : LoopState × List Event :=
  let angles := update_rotation_angles (st.rotation_angle_x, st.rotation_angle_y)
  ({ st with rotation_angle_x := angles.1, rotation_angle_y := angles.2 },
   (renderFrame angles.1 angles.2 (st.app.screen_info.getD [])).map Event.gl ++
     [Event.swapBuffers] ++
     (match frameSleep elapsed with
      | some t => [Event.usleepCall t]
      | none => []) ++
     [Event.xFlush])

/-- `main_loop` (lines 251-313), fuel-indexed: at iteration `k` the `while`
condition reads the `terminate` flag (value `flag k`, as set asynchronously by
the signal handler: the handler only writes the flag and the loop only reads
it at the condition, so the interleaving is fully described by the value each
read observes); if it is set the loop exits, otherwise one full frame body
runs and the loop repeats. -/
def main_loop (flag : Nat → Bool) (elapsed : Nat → Int) :
    Nat → Nat → LoopState → LoopState × List Event
  | 0, _, st => (st, [])
  | fuel + 1, k, st =>
    if flag k then (st, [Event.check true])
    else
      ((main_loop flag elapsed fuel (k + 1) (frameBody (elapsed k) st).1).1,
       Event.check false :: (frameBody (elapsed k) st).2 ++
         (main_loop flag elapsed fuel (k + 1) (frameBody (elapsed k) st).1).2)

/-- Exactly `n` complete frames starting at iteration `k`: the straight-line
execution against which the loop trace is compared. -/
def runFrames (elapsed : Nat → Int) : Nat → Nat → LoopState → LoopState × List Event
  | 0, _, st => (st, [])
  | n + 1, k, st =>
    ((runFrames elapsed n (k + 1) (frameBody (elapsed k) st).1).1,
     Event.check false :: (frameBody (elapsed k) st).2 ++
       (runFrames elapsed n (k + 1) (frameBody (elapsed k) st).1).2)

/-- One step of `initialize` (lines 131-238), in source order. -/
inductive InitStep where
  | openDisplay
  | queryScreens
  | chooseVisual
  | createColormap
  | createWindow (x y w h : Int)
  | createContext
  | setWindowType
  | mapWindow
  | initGlew
  | setupBuffers
deriving DecidableEq, Repr

/-- The external world `initialize` interacts with: the result each
X11/GLX/GLEW acquisition call would return (`0`/`none`/`false` meaning that
call fails). -/
structure X11Env where
  xOpenDisplay : Nat
  xineramaScreens : Option (List XineramaScreenInfo)
  glXChooseVisual : Nat
  xCreateColormap : Nat
  xCreateWindow : Nat
  glXCreateContext : Nat
  glewInitOk : Bool
  bufferIds : Nat × Nat × Nat
deriving DecidableEq, Repr

/-- `initialize` (lines 131-238) against an environment: returns the C return
value (`0` ok, `-1` failure), the updated context, the `stderr` diagnostics
printed, and the trace of steps attempted.  Each failure returns `-1`
immediately, so the step trace ends at the failing step. -/
def initApp (env : X11Env) (a0 : AppData) : Int × AppData × List String × List InitStep :=
  let a1 := { a0 with display := env.xOpenDisplay }
  if a1.display = 0 then
    (-1, a1, ["Failed to open X display"], [InitStep.openDisplay])
  else
    match env.xineramaScreens with
    | none =>
      (-1, a1, ["Failed to query multi-monitor information"],
       [InitStep.openDisplay, InitStep.queryScreens])
    | some screens =>
      let a2 := { a1 with screen_info := some screens,
                          num_screens := (screens.length : Int) }
      let cw := (combinedSize screens).1
      let ch := (combinedSize screens).2
      let a3 := { a2 with visual_info := env.glXChooseVisual }
      if a3.visual_info = 0 then
        (-1, a3, ["No appropriate visual found"],
         [InitStep.openDisplay, InitStep.queryScreens, InitStep.chooseVisual])
      else
      let a4 := { a3 with color_map := env.xCreateColormap }
      if a4.color_map = 0 then
        (-1, a4, ["Failed to create colormap"],
         [InitStep.openDisplay, InitStep.queryScreens, InitStep.chooseVisual,
          InitStep.createColormap])
      else
      let a5 := { a4 with window := env.xCreateWindow }
      if a5.window = 0 then
        (-1, a5, ["Failed to create window"],
         [InitStep.openDisplay, InitStep.queryScreens, InitStep.chooseVisual,
          InitStep.createColormap, InitStep.createWindow 0 0 cw ch])
      else
      let a6 := { a5 with glx_context := env.glXCreateContext }
      if a6.glx_context = 0 then
        (-1, a6, ["Failed to create GLX context"],
         [InitStep.openDisplay, InitStep.queryScreens, InitStep.chooseVisual,
          InitStep.createColormap, InitStep.createWindow 0 0 cw ch,
          InitStep.createContext])
      else
      if env.glewInitOk = false then
        (-1, a6, ["Failed to initialize GLEW"],
         [InitStep.openDisplay, InitStep.queryScreens, InitStep.chooseVisual,
          InitStep.createColormap, InitStep.createWindow 0 0 cw ch,
          InitStep.createContext, InitStep.setWindowType, InitStep.mapWindow,
          InitStep.initGlew])
      else
      let a7 := { a6 with vertex_buffer := env.bufferIds.1,
                          index_buffer := env.bufferIds.2.1,
                          color_buffer := env.bufferIds.2.2 }
      (0, a7, [],
       [InitStep.openDisplay, InitStep.queryScreens, InitStep.chooseVisual,
        InitStep.createColormap, InitStep.createWindow 0 0 cw ch,
        InitStep.createContext, InitStep.setWindowType, InitStep.mapWindow,
        InitStep.initGlew, InitStep.setupBuffers])

/-- `main` (lines 315-330): zero-initialize the context, run `initialize`; on
failure print `Initialization failed`, run `cleanup` on the partial context
and exit with `EXIT_FAILURE` (1); on success run `main_loop`, then `cleanup`,
and exit 0.  Returns the exit status, the diagnostics printed, and the release
calls the final `cleanup` issues. -/
def mainRun (env : X11Env) (flag : Nat → Bool) (elapsed : Nat → Int) (fuel : Nat) :
    Int × List String × List XCall :=
  let r := initApp env zeroApp
  if r.1 ≠ 0 then
    (1, r.2.2.1 ++ ["Initialization failed"], (cleanup r.2.1).2)
  else
    let st : LoopState := { app := r.2.1, rotation_angle_x := 0, rotation_angle_y := 0 }
    let rl := main_loop flag elapsed fuel 0 st
    (0, r.2.2.1, (cleanup rl.1.app).2)

/-- Recognizes an indexed draw call in a GL command stream. -/
def isDrawCmd : GLCmd → Bool
  | GLCmd.glDrawElements _ => true
  | _ => false

/-- Two side-by-side monitors whose second screen is taller than the first:
100x100 at (0,0) and 100x200 at (100,0). -/
def screensTaller : List XineramaScreenInfo :=
  [{ x_org := 0, y_org := 0, width := 100, height := 100 },
   { x_org := 100, y_org := 0, width := 100, height := 200 }]

/-- An environment in which every acquisition call succeeds and Xinerama
reports `screensTaller`. -/
def envTaller : X11Env :=
  { xOpenDisplay := 1, xineramaScreens := some screensTaller, glXChooseVisual := 1,
    xCreateColormap := 1, xCreateWindow := 1, glXCreateContext := 1,
    glewInitOk := true, bufferIds := (1, 2, 3) }

/-- A context holding exactly one acquired resource: a vertex buffer with
handle 1, every other field zero/null. -/
def ctxOneBuffer : AppData := { zeroApp with vertex_buffer := 1 }

/-- An environment identical to `envTaller` except that GLX context creation
fails. -/
def envFailCtx : X11Env := { envTaller with glXCreateContext := 0 }

/-- Recognizes a read of the `terminate` flag in a loop event trace. -/
def isCheckEv : Event → Bool
  | Event.check _ => true
  | _ => false

/-- A flag history in which the termination signal lands during frame 2:
the reads at iterations 0 and 1 observe 0, every later read observes 1. -/
def flagAfterTwo : Nat → Bool := fun k => decide (2 ≤ k)

/-- A clock oracle reporting 10000 elapsed microseconds for every frame. -/
def elapsedTenThousand : Nat → Int := fun _ => 10000

/-- A loop state over the two `screensTaller` monitors with both rotation
angles at 0, as `main` builds it after a successful `initialize`. -/
def stTwoScreens : LoopState :=
  { app := { zeroApp with screen_info := some screensTaller, num_screens := 2 },
    rotation_angle_x := 0, rotation_angle_y := 0 }

/-- C8: `signal_handler` maps SIGINT and SIGTERM to the same behavior: for
either signal number it sets the `terminate` flag to 1 (its only effect), with
no distinction between the two signals. -/
theorem signal_handler_sigint_sigterm : ∀ t : Int,
    signal_handler SIGINT t = 1 ∧ signal_handler SIGTERM t = 1 ∧
    signal_handler SIGINT t = signal_handler SIGTERM t := by
  intro t
  refine ⟨?_, ?_, ?_⟩ <;> simp [signal_handler, SIGINT, SIGTERM]

/-- C4: if the elapsed frame time is strictly below the budget
`TARGET_FRAME_DURATION = 1000000/60` microseconds, the loop sleeps for exactly
the remainder; if it is at least the budget, no sleep occurs. -/
theorem frame_pacing_sleep (e : Int) :
    (e < TARGET_FRAME_DURATION → frameSleep e = some (TARGET_FRAME_DURATION - e)) ∧
    (TARGET_FRAME_DURATION ≤ e → frameSleep e = none) := by
  constructor
  · intro h
    simp only [frameSleep, time_to_sleep, gt_iff_lt]
    rw [if_pos (sub_pos.mpr h)]
  · intro h
    simp only [frameSleep, time_to_sleep, gt_iff_lt]
    rw [if_neg (not_lt.mpr (sub_nonpos.mpr h))]

/-- Witness for C4 at the concrete elapsed times 10000 (sleeps 6666) and
16666 (no sleep). -/
theorem frame_pacing_sleep_witness :
    frameSleep 10000 = some 6666 ∧ frameSleep 16666 = none :=
  ⟨((frame_pacing_sleep 10000).1 (by decide)).trans (by decide),
   (frame_pacing_sleep 16666).2 (by decide)⟩

/-- C1 (evaluation at the failing input): with two screens of heights 100 and
200, the surface-size loop of `initialize` computes combined height 300 — the
second height exceeds the running value, so it is added on top — and the
window is created 200x300 at (0,0), while the maximum region height the claim
demands is 200. -/
theorem initApp_surface_height_accumulates :
    combinedSize screensTaller = (200, 300) ∧
    maxHeight screensTaller = 200 ∧
    InitStep.createWindow 0 0 200 300 ∈ (initApp envTaller zeroApp).2.2.2 ∧
    (300 : Int) ≠ 200 := by decide

/-- C10: `cleanup` contains no assignment to any context field, so any number
of calls leaves the context exactly as it was: released handle fields are not
reset to zero/null. -/
theorem cleanup_preserves_fields : ∀ (n : Nat) (a : AppData), (runCleanup n a).1 = a := by
  intro n
  induction n with
  | zero => intro a; rfl
  | succ n ih => intro a; simpa [runCleanup, cleanup] using ih a

/-- C5 (counterexample): `cleanup` is NOT idempotent.  On a context holding
one acquired vertex buffer, calling `cleanup` twice deletes the buffer twice
(the handle field is never cleared, so the second call repeats the release),
which is not the effect of calling it once. -/
theorem cleanup_twice_ne_once :
    ¬ runCleanup 2 ctxOneBuffer = runCleanup 1 ctxOneBuffer := by decide

/-- C5 (amended): `cleanup` releases only resources whose handles are
non-zero/non-null — on a zero-initialized context it releases nothing — but it
is not idempotent: since no field is cleared, a second call issues exactly the
same release calls again, so calling twice has the effect of calling once
precisely when there was nothing to release. -/
theorem cleanup_guarded_not_idempotent (a : AppData) :
    (runCleanup 2 a).2 = (runCleanup 1 a).2 ++ (runCleanup 1 a).2 ∧
    ((runCleanup 2 a).2 = (runCleanup 1 a).2 ↔ (runCleanup 1 a).2 = []) ∧
    ((runCleanup 1 a).2 = [] ↔
      a.vertex_buffer = 0 ∧ a.index_buffer = 0 ∧ a.color_buffer = 0 ∧
      a.color_map = 0 ∧ a.window = 0 ∧ a.glx_context = 0 ∧
      a.visual_info = 0 ∧ a.screen_info = none ∧ a.display = 0) ∧
    (runCleanup 1 zeroApp).2 = [] := by
  have h1 : (runCleanup 1 a).2 = cleanupCalls a := by
    simp [runCleanup, cleanup]
  have h2 : (runCleanup 2 a).2 = cleanupCalls a ++ cleanupCalls a := by
    simp [runCleanup, cleanup]
  refine ⟨by rw [h1, h2], ?_, ?_, by decide⟩
  · rw [h1, h2]
    constructor
    · intro h
      have hl := congrArg List.length h
      simp only [List.length_append] at hl
      exact List.eq_nil_of_length_eq_zero (by omega)
    · intro h
      rw [h]
      rfl
  · rw [h1]
    simp [cleanupCalls, List.append_eq_nil]

lemma fmodQ_add_int_mul (m : ℚ) (hm : m ≠ 0) (y : ℚ) (k : ℤ) :
    fmodQ (y + m * k) m = fmodQ y m := by
  unfold fmodQ
  have h : (y + m * k) / m = y / m + k := by
    field_simp
    ring
  rw [h, Int.floor_add_int]
  push_cast
  ring

lemma fmodQ_eq_mul_fract (x m : ℚ) (hm : m ≠ 0) :
    fmodQ x m = m * Int.fract (x / m) := by
  unfold fmodQ Int.fract
  rw [mul_sub]
  congr 1
  field_simp

lemma fmodQ_bounds (x m : ℚ) (hm : 0 < m) : 0 ≤ fmodQ x m ∧ fmodQ x m < m := by
  rw [fmodQ_eq_mul_fract x m (ne_of_gt hm)]
  constructor
  · exact mul_nonneg hm.le (Int.fract_nonneg _)
  · calc m * Int.fract (x / m) < m * 1 := (mul_lt_mul_left hm).mpr (Int.fract_lt_one _)
    _ = m := mul_one m

lemma fmodQ_absorb (y : ℚ) : fmodQ (fmodQ y 360 + 1/2) 360 = fmodQ (y + 1/2) 360 := by
  have h : fmodQ y 360 + 1/2 = (y + 1/2) + 360 * ((-⌊y / 360⌋ : ℤ) : ℚ) := by
    unfold fmodQ
    push_cast
    ring
  rw [h, fmodQ_add_int_mul 360 (by norm_num)]

lemma iterate_update_rotation (n : Nat) :
    update_rotation_angles^[n] (0, 0) =
      (fmodQ ((1/2) * n) 360, fmodQ ((1/2) * n) 360) := by
  induction n with
  | zero => simp [fmodQ]
  | succ n ih =>
    rw [Function.iterate_succ_apply', ih]
    unfold update_rotation_angles
    rw [show ((1 : ℚ)/2) * ((n + 1 : ℕ) : ℚ) = (1/2) * (n : ℚ) + 1/2 by push_cast; ring]
    rw [Prod.mk.injEq]
    exact ⟨fmodQ_absorb _, fmodQ_absorb _⟩

/-- C2: starting both rotation angles at 0, after `n` applications of
`update_rotation_angles` each angle equals `(0.5 * n) mod 360` and lies in
`[0, 360)`.  Every intermediate value is an integer multiple of 1/2 below
360.5, so the exact ℚ computation coincides with the C float computation. -/
theorem update_rotation_angles_iterate (n : Nat) :
    (update_rotation_angles^[n] (0, 0)).1 = fmodQ ((1/2) * n) 360 ∧
    (update_rotation_angles^[n] (0, 0)).2 = fmodQ ((1/2) * n) 360 ∧
    0 ≤ (update_rotation_angles^[n] (0, 0)).1 ∧
    (update_rotation_angles^[n] (0, 0)).1 < 360 ∧
    0 ≤ (update_rotation_angles^[n] (0, 0)).2 ∧
    (update_rotation_angles^[n] (0, 0)).2 < 360 := by
  have h := iterate_update_rotation n
  have hb := fmodQ_bounds ((1/2) * (n : ℚ)) 360 (by norm_num)
  rw [h]
  exact ⟨rfl, rfl, hb.1, hb.2, hb.1, hb.2⟩

lemma drawLog_flatMap (ax ay : ℚ) (ss : List XineramaScreenInfo) (g : GLState) :
    drawLog g (ss.flatMap (renderScreen ax ay)) =
      ss.map (fun s =>
        ((s.x_org, s.y_org, s.width, s.height), (s.width : ℚ) / (s.height : ℚ))) := by
  induction ss generalizing g with
  | nil => simp [drawLog]
  | cons s rest ih =>
    rw [List.flatMap_cons]
    simp only [renderScreen, List.cons_append, List.nil_append]
    simp only [drawLog]
    rw [ih, List.map_cons]

lemma countDraw_flatMap (ax ay : ℚ) (ss : List XineramaScreenInfo) :
    (ss.flatMap (renderScreen ax ay)).countP isDrawCmd = ss.length := by
  induction ss with
  | nil => rfl
  | cons s rest ih =>
    rw [List.flatMap_cons, List.countP_append, ih]
    have h : List.countP isDrawCmd (renderScreen ax ay s) = 1 := rfl
    rw [h, List.length_cons]
    omega

/-- C3: one frame with monitor regions `screens` issues exactly `N` indexed
draw calls, in enumeration order, and at every draw the viewport in force is
exactly that region's `(x, y, width, height)` rectangle and the projection
aspect in force is that region's width divided by its height. -/
theorem renderFrame_draw_passes (ax ay : ℚ) (screens : List XineramaScreenInfo) (g : GLState) :
    drawLog g (renderFrame ax ay screens) =
      screens.map (fun s =>
        ((s.x_org, s.y_org, s.width, s.height), (s.width : ℚ) / (s.height : ℚ))) ∧
    (renderFrame ax ay screens).countP isDrawCmd = screens.length := by
  constructor
  · rw [renderFrame]
    rw [show drawLog g (GLCmd.glClear :: screens.flatMap (renderScreen ax ay)) =
      drawLog g (screens.flatMap (renderScreen ax ay)) from rfl]
    exact drawLog_flatMap ax ay screens g
  · rw [renderFrame, List.countP_cons]
    rw [countDraw_flatMap ax ay screens]
    rfl

lemma main_loop_app_eq (flag : Nat → Bool) (elapsed : Nat → Int) :
    ∀ (fuel k : Nat) (st : LoopState),
      (main_loop flag elapsed fuel k st).1.app = st.app := by
  intro fuel
  induction fuel with
  | zero => intro k st; rfl
  | succ n ih =>
    intro k st
    rw [main_loop]
    by_cases h : flag k
    · rw [if_pos h]
    · rw [if_neg h]
      exact ih (k + 1) (frameBody (elapsed k) st).1

/-- C9: the monitor region list and the region count are never modified after
a successful `initialize`: any number of render-loop iterations leaves
`screen_info` and `num_screens` (indeed every context field) unchanged. -/
theorem main_loop_preserves_screens (flag : Nat → Bool) (elapsed : Nat → Int)
    (fuel k : Nat) (st : LoopState) :
    (main_loop flag elapsed fuel k st).1.app.screen_info = st.app.screen_info ∧
    (main_loop flag elapsed fuel k st).1.app.num_screens = st.app.num_screens ∧
    (main_loop flag elapsed fuel k st).1.app = st.app := by
  have h := main_loop_app_eq flag elapsed fuel k st
  exact ⟨by rw [h], by rw [h], h⟩

lemma frameBody_check_count (e : Int) (st : LoopState) :
    (frameBody e st).2.countP isCheckEv = 0 := by
  rw [List.countP_eq_zero]
  intro ev hev
  simp only [frameBody, List.mem_append, List.mem_map, List.mem_singleton] at hev
  rcases hev with ((⟨c, _, hc⟩ | hev) | hev) | hev
  · rw [← hc]; simp [isCheckEv]
  · rw [hev]; simp [isCheckEv]
  · rcases hs : frameSleep e with _ | t <;> rw [hs] at hev <;> simp at hev
    rw [hev]; simp [isCheckEv]
  · rw [hev]; simp [isCheckEv]

lemma runFrames_check_count (elapsed : Nat → Int) :
    ∀ (n k : Nat) (st : LoopState),
      (runFrames elapsed n k st).2.countP isCheckEv = n := by
  intro n
  induction n with
  | zero => intro k st; rfl
  | succ n ih =>
    intro k st
    rw [runFrames]
    simp only [List.countP_cons, List.countP_append]
    rw [frameBody_check_count, ih]
    simp [isCheckEv]
    omega

lemma main_loop_run_aux (flag : Nat → Bool) (elapsed : Nat → Int) :
    ∀ (n fuel k : Nat) (st : LoopState),
      (∀ j, j < n → flag (k + j) = false) → flag (k + n) = true → n < fuel →
      main_loop flag elapsed fuel k st =
        ((runFrames elapsed n k st).1,
         (runFrames elapsed n k st).2 ++ [Event.check true]) := by
  intro n
  induction n with
  | zero =>
    intro fuel k st h1 h2 hf
    match fuel, hf with
    | fuel + 1, _ =>
      rw [main_loop, if_pos (by simpa using h2)]
      rfl
  | succ n ih =>
    intro fuel k st h1 h2 hf
    match fuel, hf with
    | fuel + 1, hf =>
      have hk : flag k = false := by simpa using h1 0 (Nat.succ_pos n)
      rw [main_loop, if_neg (by simp [hk])]
      have ih2 := ih fuel (k + 1) (frameBody (elapsed k) st).1
        (fun j hj => by
          have h := h1 (j + 1) (Nat.succ_lt_succ hj)
          rwa [show k + (j + 1) = k + 1 + j by omega] at h)
        (by
          have h := h2
          rwa [show k + (n + 1) = k + 1 + n by omega] at h)
        (Nat.lt_of_succ_lt_succ hf)
      rw [ih2, runFrames]
      rw [Prod.mk.injEq]
      exact ⟨rfl, by simp [List.append_assoc]⟩

/-- C6: the loop reads the `terminate` flag exactly once per frame, at the
frame boundary.  If the reads at iterations `0..n-1` observe the flag unset
and the read at iteration `n` observes it set (the signal having arrived at
any point during frame `n-1`), the loop executes exactly `n` complete frames
— each with all its draw passes, buffer swap, pacing and flush — and then
exits; it never exits mid-frame, and the trace contains exactly `n + 1` flag
reads. -/
theorem main_loop_exits_after_complete_frame (flag : Nat → Bool) (elapsed : Nat → Int)
    (fuel n : Nat) (st : LoopState)
    (h1 : ∀ j, j < n → flag j = false) (h2 : flag n = true) (hf : n < fuel) :
    main_loop flag elapsed fuel 0 st =
      ((runFrames elapsed n 0 st).1,
       (runFrames elapsed n 0 st).2 ++ [Event.check true]) ∧
    (main_loop flag elapsed fuel 0 st).2.countP isCheckEv = n + 1 := by
  have h := main_loop_run_aux flag elapsed n fuel 0 st
    (fun j hj => by simpa using h1 j hj) (by simpa using h2) hf
  refine ⟨h, ?_⟩
  rw [h]
  simp only [List.countP_append]
  rw [runFrames_check_count]
  rfl

/-- Witness for C6: with the flag observed set from the third read on, the
loop over two monitors runs exactly two complete frames and exits. -/
theorem main_loop_exits_witness :
    main_loop flagAfterTwo elapsedTenThousand 4 0 stTwoScreens =
      ((runFrames elapsedTenThousand 2 0 stTwoScreens).1,
       (runFrames elapsedTenThousand 2 0 stTwoScreens).2 ++ [Event.check true]) ∧
    (main_loop flagAfterTwo elapsedTenThousand 4 0 stTwoScreens).2.countP isCheckEv = 2 + 1 :=
  main_loop_exits_after_complete_frame flagAfterTwo elapsedTenThousand 4 2 stTwoScreens
    (by decide) (by decide) (by decide)

/-- C7: every initialization failure prints a diagnostic naming the failed
step, makes `initialize` return `-1` immediately — the attempted-step trace
stops at the failing step — and makes `main` run `cleanup` on the partial
context and exit with status 1; when every step succeeds, `initialize`
returns 0, prints nothing, and `main` exits with status 0 after the loop. -/
theorem initApp_failure_propagation (env : X11Env) (flag : Nat → Bool)
    (elapsed : Nat → Int) (fuel : Nat) :
    (env.xOpenDisplay = 0 →
      (initApp env zeroApp).1 = -1 ∧
      (initApp env zeroApp).2.2.1 = ["Failed to open X display"] ∧
      (initApp env zeroApp).2.2.2 = [InitStep.openDisplay] ∧
      mainRun env flag elapsed fuel =
        (1, ["Failed to open X display", "Initialization failed"],
         (cleanup (initApp env zeroApp).2.1).2)) ∧
    (env.xOpenDisplay ≠ 0 → env.xineramaScreens = none →
      (initApp env zeroApp).1 = -1 ∧
      (initApp env zeroApp).2.2.1 = ["Failed to query multi-monitor information"] ∧
      (initApp env zeroApp).2.2.2 = [InitStep.openDisplay, InitStep.queryScreens] ∧
      mainRun env flag elapsed fuel =
        (1, ["Failed to query multi-monitor information", "Initialization failed"],
         (cleanup (initApp env zeroApp).2.1).2)) ∧
    (env.xOpenDisplay ≠ 0 → env.xineramaScreens ≠ none → env.glXChooseVisual = 0 →
      (initApp env zeroApp).1 = -1 ∧
      (initApp env zeroApp).2.2.1 = ["No appropriate visual found"] ∧
      (initApp env zeroApp).2.2.2 =
        [InitStep.openDisplay, InitStep.queryScreens, InitStep.chooseVisual] ∧
      mainRun env flag elapsed fuel =
        (1, ["No appropriate visual found", "Initialization failed"],
         (cleanup (initApp env zeroApp).2.1).2)) ∧
    (env.xOpenDisplay ≠ 0 → env.xineramaScreens ≠ none → env.glXChooseVisual ≠ 0 →
      env.xCreateColormap = 0 →
      (initApp env zeroApp).1 = -1 ∧
      (initApp env zeroApp).2.2.1 = ["Failed to create colormap"] ∧
      (initApp env zeroApp).2.2.2 =
        [InitStep.openDisplay, InitStep.queryScreens, InitStep.chooseVisual,
         InitStep.createColormap] ∧
      mainRun env flag elapsed fuel =
        (1, ["Failed to create colormap", "Initialization failed"],
         (cleanup (initApp env zeroApp).2.1).2)) ∧
    (env.xOpenDisplay ≠ 0 → env.xineramaScreens ≠ none → env.glXChooseVisual ≠ 0 →
      env.xCreateColormap ≠ 0 → env.xCreateWindow = 0 →
      (initApp env zeroApp).1 = -1 ∧
      (initApp env zeroApp).2.2.1 = ["Failed to create window"] ∧
      (initApp env zeroApp).2.2.2 =
        [InitStep.openDisplay, InitStep.queryScreens, InitStep.chooseVisual,
         InitStep.createColormap,
         InitStep.createWindow 0 0 (combinedSize (env.xineramaScreens.getD [])).1
           (combinedSize (env.xineramaScreens.getD [])).2] ∧
      mainRun env flag elapsed fuel =
        (1, ["Failed to create window", "Initialization failed"],
         (cleanup (initApp env zeroApp).2.1).2)) ∧
    (env.xOpenDisplay ≠ 0 → env.xineramaScreens ≠ none → env.glXChooseVisual ≠ 0 →
      env.xCreateColormap ≠ 0 → env.xCreateWindow ≠ 0 → env.glXCreateContext = 0 →
      (initApp env zeroApp).1 = -1 ∧
      (initApp env zeroApp).2.2.1 = ["Failed to create GLX context"] ∧
      (initApp env zeroApp).2.2.2 =
        [InitStep.openDisplay, InitStep.queryScreens, InitStep.chooseVisual,
         InitStep.createColormap,
         InitStep.createWindow 0 0 (combinedSize (env.xineramaScreens.getD [])).1
           (combinedSize (env.xineramaScreens.getD [])).2,
         InitStep.createContext] ∧
      mainRun env flag elapsed fuel =
        (1, ["Failed to create GLX context", "Initialization failed"],
         (cleanup (initApp env zeroApp).2.1).2)) ∧
    (env.xOpenDisplay ≠ 0 → env.xineramaScreens ≠ none → env.glXChooseVisual ≠ 0 →
      env.xCreateColormap ≠ 0 → env.xCreateWindow ≠ 0 → env.glXCreateContext ≠ 0 →
      env.glewInitOk = false →
      (initApp env zeroApp).1 = -1 ∧
      (initApp env zeroApp).2.2.1 = ["Failed to initialize GLEW"] ∧
      (initApp env zeroApp).2.2.2 =
        [InitStep.openDisplay, InitStep.queryScreens, InitStep.chooseVisual,
         InitStep.createColormap,
         InitStep.createWindow 0 0 (combinedSize (env.xineramaScreens.getD [])).1
           (combinedSize (env.xineramaScreens.getD [])).2,
         InitStep.createContext, InitStep.setWindowType, InitStep.mapWindow,
         InitStep.initGlew] ∧
      mainRun env flag elapsed fuel =
        (1, ["Failed to initialize GLEW", "Initialization failed"],
         (cleanup (initApp env zeroApp).2.1).2)) ∧
    (env.xOpenDisplay ≠ 0 → env.xineramaScreens ≠ none → env.glXChooseVisual ≠ 0 →
      env.xCreateColormap ≠ 0 → env.xCreateWindow ≠ 0 → env.glXCreateContext ≠ 0 →
      env.glewInitOk = true →
      (initApp env zeroApp).1 = 0 ∧
      (initApp env zeroApp).2.2.1 = [] ∧
      (mainRun env flag elapsed fuel).1 = 0 ∧
      (mainRun env flag elapsed fuel).2.1 = []) := by
  refine ⟨?_, ?_, ?_, ?_, ?_, ?_, ?_, ?_⟩
  · intro h1
    simp [initApp, mainRun, h1]
  · intro h1 h2
    simp [initApp, mainRun, h1, h2]
  · intro h1 h2 h3
    rcases hs : env.xineramaScreens with _ | s
    · exact absurd hs h2
    · simp [initApp, mainRun, h1, hs, h3]
  · intro h1 h2 h3 h4
    rcases hs : env.xineramaScreens with _ | s
    · exact absurd hs h2
    · simp [initApp, mainRun, h1, hs, h3, h4]
  · intro h1 h2 h3 h4 h5
    rcases hs : env.xineramaScreens with _ | s
    · exact absurd hs h2
    · simp [initApp, mainRun, h1, hs, h3, h4, h5]
  · intro h1 h2 h3 h4 h5 h6
    rcases hs : env.xineramaScreens with _ | s
    · exact absurd hs h2
    · simp [initApp, mainRun, h1, hs, h3, h4, h5, h6]
  · intro h1 h2 h3 h4 h5 h6 h7
    rcases hs : env.xineramaScreens with _ | s
    · exact absurd hs h2
    · simp [initApp, mainRun, h1, hs, h3, h4, h5, h6, h7]
  · intro h1 h2 h3 h4 h5 h6 h7
    rcases hs : env.xineramaScreens with _ | s
    · exact absurd hs h2
    · simp [initApp, mainRun, h1, hs, h3, h4, h5, h6, h7]

/-- Witness for C7: in an environment where GLX context creation fails (all
earlier steps succeeding over the `screensTaller` monitors), `initialize`
returns -1 having printed the context diagnostic and stopped at the failing
step, and `main` exits 1 after releasing exactly the acquired resources. -/
theorem initApp_failure_witness :
    (initApp envFailCtx zeroApp).1 = -1 ∧
    (initApp envFailCtx zeroApp).2.2.1 = ["Failed to create GLX context"] ∧
    (initApp envFailCtx zeroApp).2.2.2 =
      [InitStep.openDisplay, InitStep.queryScreens, InitStep.chooseVisual,
       InitStep.createColormap, InitStep.createWindow 0 0 200 300,
       InitStep.createContext] ∧
    mainRun envFailCtx flagAfterTwo elapsedTenThousand 4 =
      (1, ["Failed to create GLX context", "Initialization failed"],
       [XCall.xFreeColormap 1, XCall.xDestroyWindow 1, XCall.xFreeVisualInfo 1,
        XCall.xFreeScreenInfo, XCall.xCloseDisplay 1]) := by
  have h := (initApp_failure_propagation envFailCtx flagAfterTwo
      elapsedTenThousand 4).2.2.2.2.2.1
    (by decide) (by decide) (by decide) (by decide) (by decide) (by decide)
  exact ⟨h.1, h.2.1, h.2.2.1.trans (by decide), h.2.2.2.trans (by decide)⟩

end DesktopCube
